import Mathlib

/-!
Verification of the camera acquisition / frame distribution pipeline in
src/sensors/cv.py (a YOLO-based bird/person camera monitor served over HTTP).

The Python module is embedded shallowly:
* pure helpers (`filter_detections`) become Lean functions;
* the body of the `while processing_active:` loop in `process_camera_stream`
  becomes a step function `loopStep` on an explicit `LoopState`, with the
  per-iteration nondeterminism (wall clock, which URLs open, whether the
  read succeeds, what the detector returns) packaged in an `Env` record;
* the three separate global assignments that make up a "publish" in the
  analysis branch become an explicit list of atomic writes on a `SinkCell`,
  so that reader interleavings can be analysed.

Machine integers do not occur (Python ints/floats; times are modelled as
integers, counts as naturals).
-/

/-- The detection-count dictionary `{"Birds": 0, "Persons": 0}` used both for
the module-global `detection_counts` and for the `class_counts` built inside
`filter_detections`. -/
structure ClassCounts where
  Birds : Nat
  Persons : Nat
deriving DecidableEq, Repr

/-- The default `classes=["person", "bird"]` parameter of `filter_detections`
(the function is only ever called with this default). -/
def yolo_classes : List String := ["person", "bird"]

/-- The counting loop at the end of `filter_detections`:
starts from `{"Birds": 0, "Persons": 0}` and walks the filtered boxes,
incrementing `Birds` when the class name is `"bird"` and `Persons` when it is
`"person"`. -/
def count_filtered (names : Nat → String) (boxes : List Nat) : ClassCounts :=
  boxes.foldl
    (fun acc c =>
      if names c = "bird" then { acc with Birds := acc.Birds + 1 }
      else if names c = "person" then { acc with Persons := acc.Persons + 1 }
      else acc)
    { Birds := 0, Persons := 0 }

/-- Model of `filter_detections(results)` from src/sensors/cv.py.

The ultralytics result object is modelled by the list `cls` of integer class
ids of `results[0].boxes.cls` together with the class-name table `names`
(`results[0].names`).  The source builds
`mask = np.array([results[0].names[int(c)] in classes for c in boxes.cls])`
and then indexes `results[0][mask]`.

On a nonempty list of Python booleans the numpy array has dtype `bool` and the
indexing keeps exactly the marked boxes.  On an empty detection list, however,
`np.array([])` has dtype `float64` (numpy cannot infer a boolean dtype from an
empty list), and indexing the underlying result tensors with a float-dtype
array raises `IndexError` (only integer or boolean arrays are valid indices).
That failure mode is modelled by the `Except.error` branch; the successful
path returns the kept class ids and the counts computed by the final loop. -/
def filter_detections (names : Nat → String) (cls : List Nat) :
    Except String (List Nat × ClassCounts) :=
  let mask : List Bool := cls.map (fun c => yolo_classes.contains (names c))
  if mask.isEmpty then
    Except.error "IndexError"
  else
    let filtered := (cls.zip mask).filterMap (fun p => if p.2 then some p.1 else none)
    Except.ok (filtered, count_filtered names filtered)

/-!
Model of the shared "frame sink": the module globals `last_frame`,
`detection_counts` and `last_analysis_time` written by the acquisition thread
and read concurrently by the Flask handler threads.
-/

/-- One concurrent view of the three module globals.  Each field records the
index of the publish whose assignment last wrote it (0 = the initial values
set at module load). -/
structure SinkCell where
  last_frame : Nat
  detection_counts : Nat
  last_analysis_time : Nat
deriving DecidableEq, Repr

/-- The analysis branch of `process_camera_stream` updates the three shared
globals by three separate plain assignments, in this source order:
`detection_counts = counts`, then (after plotting and JPEG-encoding)
`last_frame = buffer.tobytes()`, then `last_analysis_time = current_time`.
There is no lock; each single assignment is atomic (one store under the GIL)
but the triple is not.  Publish number `k` is modelled as that list of three
atomic writes, tagging each written field with `k`. -/
def publishWrites (k : Nat) : List (SinkCell → SinkCell) :=
  [fun s => { s with detection_counts := k },
   fun s => { s with last_frame := k },
   fun s => { s with last_analysis_time := k }]

/-- Apply a list of atomic writes in order. -/
def applyWrites (ws : List (SinkCell → SinkCell)) (s : SinkCell) : SinkCell :=
  ws.foldl (fun a w => w a) s

/-- The globals as initialised at module load
(`last_frame = None`, `detection_counts = {"Birds": 0, "Persons": 0}`,
`last_analysis_time = 0`): publish index 0 everywhere. -/
def sinkInit : SinkCell := { last_frame := 0, detection_counts := 0, last_analysis_time := 0 }

/-- State of the globals after the first `k` analysis publishes have fully
completed. -/
def afterPublishes : Nat → SinkCell
  | 0 => sinkInit
  | k + 1 => applyWrites (publishWrites (k + 1)) (afterPublishes k)

/-- The instantaneous contents of the three globals after `k` complete
publishes and the first `r` atomic writes of publish `k + 1` (`r ≤ 3`).
This is the state of shared memory at one point of the write sequence of
the acquisition thread; no reader gets to sample all of it in one step — a reader samples
one field per load, see `api_data_read`. -/
def globalsAt (k r : Nat) : SinkCell :=
  applyWrites ((publishWrites (k + 1)).take r) (afterPublishes k)

theorem afterPublishes_eq (k : Nat) :
    afterPublishes k = { last_frame := k, detection_counts := k, last_analysis_time := k } := by
  induction k with
  | zero => rfl
  | succ n ih => simp [afterPublishes, ih, publishWrites, applyWrites]

theorem globalsAt_zero (k : Nat) :
    globalsAt k 0 = { last_frame := k, detection_counts := k, last_analysis_time := k } := by
  simp [globalsAt, applyWrites, afterPublishes_eq]

theorem globalsAt_one (k : Nat) :
    globalsAt k 1 = { last_frame := k, detection_counts := k + 1, last_analysis_time := k } := by
  simp [globalsAt, publishWrites, applyWrites, afterPublishes_eq]

theorem globalsAt_two (k : Nat) :
    globalsAt k 2 =
      { last_frame := k + 1, detection_counts := k + 1, last_analysis_time := k } := by
  simp [globalsAt, publishWrites, applyWrites, afterPublishes_eq]

theorem globalsAt_three (k : Nat) :
    globalsAt k 3 =
      { last_frame := k + 1, detection_counts := k + 1, last_analysis_time := k + 1 } := by
  simp [globalsAt, publishWrites, applyWrites, afterPublishes_eq]

/-- The frame/counts pair reported by one `/data` request.  The handler holds
no lock and reads the globals one field at a time, in source order: it loads
`detection_counts` while building the `"counts"` entry and only afterwards
loads `last_frame` for the `"camera"` entry.  Each single load is atomic
(one read of one global under the GIL), but the two loads are separate
events: counts sampled at writer position `(k1, r1)`, frame sampled at a
position `(k2, r2)` no earlier in the write sequence (the writer may have
performed any number of further writes between the two loads). -/
def api_data_read (k1 r1 k2 r2 : Nat) : Nat × Nat :=
  ((globalsAt k1 r1).detection_counts, (globalsAt k2 r2).last_frame)

/-- The counts global changes at the FIRST write of a publish: a load of
`detection_counts` at writer position `(k, r)` returns publish index `k`
before that write and `k + 1` from it on. -/
theorem globalsAt_counts (k r : Nat) (h : r ≤ 3) :
    (globalsAt k r).detection_counts = k + if 1 ≤ r then 1 else 0 := by
  interval_cases r <;>
    simp [globalsAt_zero, globalsAt_one, globalsAt_two, globalsAt_three]

/-- The frame global changes at the SECOND write of a publish: a load of
`last_frame` at writer position `(k, r)` returns publish index `k` before
that write and `k + 1` from it on. -/
theorem globalsAt_frame (k r : Nat) (h : r ≤ 3) :
    (globalsAt k r).last_frame = k + if 2 ≤ r then 1 else 0 := by
  interval_cases r <;>
    simp [globalsAt_zero, globalsAt_one, globalsAt_two, globalsAt_three]

/-!
Model of `process_camera_stream` (the acquisition loop).
-/

/-- Frames as they end up in the module global `last_frame` (JPEG bytes in the
source).  `placeholder` is the synthetic "Camera connection failed /
Retrying in 30s" image drawn when every URL fails; `raw` is a passthrough
JPEG encoding of camera frame number `i`; `annotated` is the plotted frame
with the counts text overlaid. -/
inductive Frame where
  | placeholder : Frame
  | raw : Nat → Frame
  | annotated : Nat → ClassCounts → Frame
deriving DecidableEq, Repr

/-- The module configuration constants of src/sensors/cv.py. -/
def camera_stream_url : String :=
  "http://demo/livestream.cgi?stream=12&action=play&media=video_audio_data"

def alternative_urls : List String := ["rtsp://demo/live", "http://demo/video"]

/-- `connection_retry_interval = 30  # seconds`. -/
def connection_retry_interval : Int := 30

/-- `max_frames_without_analysis = 500`. -/
def max_frames_without_analysis : Nat := 500

/-- The mutable state carried across iterations of the
`while processing_active:` loop: the local variables `connected` and
`last_connection_attempt`, which URL the current `cap` was opened with
(`none` when the capture is absent or failed), and the module globals
`last_frame`, `detection_counts`, `last_analysis_time`,
`frame_count_since_analysis`. -/
structure LoopState where
  connected : Bool
  last_connection_attempt : Int
  cap_url : Option String
  last_frame : Option Frame
  detection_counts : ClassCounts
  last_analysis_time : Int
  frame_count_since_analysis : Nat
deriving DecidableEq, Repr

/-- The state at thread start: globals as initialised at module load
(`detection_counts = {"Birds": 0, "Persons": 0}`, `last_frame = None`,
`last_analysis_time = 0`, `frame_count_since_analysis = 0`) and the locals
`last_connection_attempt = 0`, `connected = False`, `cap = None`. -/
def initialState : LoopState :=
  { connected := false
    last_connection_attempt := 0
    cap_url := none
    last_frame := none
    detection_counts := { Birds := 0, Persons := 0 }
    last_analysis_time := 0
    frame_count_since_analysis := 0 }

/-- The external nondeterminism of one loop iteration: the wall clock
(`time.time()`; the two calls inside one iteration are modelled as the same
instant), which URLs `cv2.VideoCapture` would open right now, whether
`cap.read()` returns a frame, the id of that frame, and the detector outcome
(`Except.error` models `model(frame)` raising; `Except.ok cls` returns the
class-id list of `results[0].boxes.cls`, with `names` the class-name table
`results[0].names`). -/
structure Env where
  time : Int
  opens : String → Bool
  readOk : Bool
  frameId : Nat
  detector : Except Unit (List Nat)
  names : Nat → String

/-- Observable events of one loop iteration, used to state the claims:
whether the connection section ran (`cv2.VideoCapture` was called), the URLs
tried in order, how many times `model(frame)` was invoked, what (if
anything) was written to `last_frame`, and whether the
`except Exception` handler fired. -/
structure IterEvents where
  connectionAttempted : Bool
  urlsTried : List String
  detectorCalls : Nat
  published : Option Frame
  exceptionCaught : Bool
deriving DecidableEq, Repr

/-- The `for url in alternative_urls:` loop: try each URL in order, stop at
the first that opens.  Returns the list of URLs actually tried and the first
one that opened (if any). -/
def try_alternative_urls (opens : String → Bool) : List String → List String × Option String
  | [] => ([], none)
  | u :: rest =>
    if opens u then ([u], some u)
    else
      let r := try_alternative_urls opens rest
      (u :: r.1, r.2)

/-- The `if connected:` body of the loop: `try: ret, frame = cap.read() ...`.
Mirrors the source: a failed read (`not ret`) sets `connected = False` and
continues; on a successful read, analysis runs only when
`time_since_last_analysis >= 60 or frame_count_since_analysis >=
max_frames_without_analysis`.  Inside the due branch, if the model is loaded
the detector runs and (via `filter_detections`) the counts, the annotated
frame and the timestamp are stored and the frame count reset; if the model
is `None` the raw frame is stored and the frame count incremented.  When
analysis is NOT due the body does nothing: the source has no `else` for the
throttle test, so the frame is dropped without being published.  Any
exception out of the detector or the filtering is caught by the
`except Exception` handler, which sets `connected = False`. -/
def read_phase (modelLoaded : Bool) (env : Env) (s : LoopState)
    (attempted : Bool) (tried : List String) : LoopState × IterEvents :=
  if ¬ env.readOk then
    ({ s with connected := false },
     { connectionAttempted := attempted, urlsTried := tried, detectorCalls := 0,
       published := none, exceptionCaught := false })
  else
    let time_since_last_analysis := env.time - s.last_analysis_time
    if 60 ≤ time_since_last_analysis ∨
        max_frames_without_analysis ≤ s.frame_count_since_analysis then
      if modelLoaded then
        match env.detector with
        | Except.error _ =>
          ({ s with connected := false },
           { connectionAttempted := attempted, urlsTried := tried, detectorCalls := 1,
             published := none, exceptionCaught := true })
        | Except.ok cls =>
          match filter_detections env.names cls with
          | Except.error _ =>
            ({ s with connected := false },
             { connectionAttempted := attempted, urlsTried := tried, detectorCalls := 1,
               published := none, exceptionCaught := true })
          | Except.ok fc =>
            ({ s with detection_counts := fc.2,
                      last_frame := some (Frame.annotated env.frameId fc.2),
                      last_analysis_time := env.time,
                      frame_count_since_analysis := 0 },
             { connectionAttempted := attempted, urlsTried := tried, detectorCalls := 1,
               published := some (Frame.annotated env.frameId fc.2),
               exceptionCaught := false })
      else
        ({ s with last_frame := some (Frame.raw env.frameId),
                  frame_count_since_analysis := s.frame_count_since_analysis + 1 },
         { connectionAttempted := attempted, urlsTried := tried, detectorCalls := 0,
           published := some (Frame.raw env.frameId), exceptionCaught := false })
    else
      (s, { connectionAttempted := attempted, urlsTried := tried, detectorCalls := 0,
            published := none, exceptionCaught := false })

/-- One iteration of the `while processing_active:` loop of
`process_camera_stream`.

Mirrors the source control flow:
the connection section runs when
`not connected or (current_time - last_connection_attempt >
connection_retry_interval)`; it stamps `last_connection_attempt`, opens the
primary URL, falls back to the alternatives in order, and on total failure
stores the placeholder frame, sets `connected = False`, sleeps one second
and `continue`s (skipping the read).  If any URL opened, `connected = True`
and the read section of the SAME iteration runs.  When the connection
section is skipped and `connected` holds, only the read section runs;
otherwise the iteration just sleeps. -/
def loopStep (modelLoaded : Bool) (env : Env) (s : LoopState) : LoopState × IterEvents :=
  if ¬ s.connected ∨ connection_retry_interval < env.time - s.last_connection_attempt then
    let s1 := { s with last_connection_attempt := env.time }
    if env.opens camera_stream_url then
      read_phase modelLoaded env
        { s1 with connected := true, cap_url := some camera_stream_url }
        true [camera_stream_url]
    else
      let alt := try_alternative_urls env.opens alternative_urls
      match alt.2 with
      | some u =>
        read_phase modelLoaded env
          { s1 with connected := true, cap_url := some u }
          true (camera_stream_url :: alt.1)
      | none =>
        ({ s1 with last_frame := some Frame.placeholder, connected := false, cap_url := none },
         { connectionAttempted := true, urlsTried := camera_stream_url :: alt.1,
           detectorCalls := 0, published := some Frame.placeholder, exceptionCaught := false })
  else
    if s.connected then
      read_phase modelLoaded env s false []
    else
      (s, { connectionAttempted := false, urlsTried := [], detectorCalls := 0,
            published := none, exceptionCaught := false })

/-- Run the loop over a list of per-iteration environments. -/
def runLoop (modelLoaded : Bool) : List Env → LoopState → LoopState
  | [], s => s
  | e :: es, s => runLoop modelLoaded es (loopStep modelLoaded e s).1

/-- The `/camera_status` route:
`"connected" if last_frame is not None else "disconnected"`. -/
def camera_status (lf : Option Frame) : String :=
  if lf.isSome then "connected" else "disconnected"

/-- The `camera.status` field of the `/data` route, computed by the same
expression `"connected" if last_frame is not None else "disconnected"`. -/
def api_data_camera_status (lf : Option Frame) : String :=
  if lf.isSome then "connected" else "disconnected"

/-!
Claim C1: atomicity of publish as observed by readers.
-/

/-- C1: the claim states that each publish replaces frame, counts and
timestamp in one atomic step, so a snapshot never pairs a frame with counts
from a different publish.  This is false for the code in both directions.
The writer updates `detection_counts` first and `last_frame` only later,
with no lock, and the `/data` reader loads the two globals by two separate
reads (counts first); so: a reader whose two loads both fall between the
counts write and the frame write of publish 2 (position `(1, 1)`) reports
the counts of publish 2 with the frame of publish 1; and a reader that
loads counts before publish 1 starts (position `(0, 0)`) and is then
preempted until after publish 2 completes (position `(2, 0)`) reports the
initial counts with the frame of publish 2 — counts two publishes older
than the frame. -/
theorem C1_counterexample :
    api_data_read 1 1 1 1 = (2, 1) ∧ api_data_read 0 0 2 0 = (0, 2) := by
  decide

/-- C1 (amended): neither the publish nor the snapshot read is atomic.  What
the code guarantees is only per-field atomicity, captured exactly by this
characterisation: each load returns the value most recently written to that
field at the moment of that load — counts change at the first write of a
publish, the frame at the second — and a reader whose two loads both fall
at one and the same publish boundary (no publish in progress, no writer
activity between the loads) obtains frame and counts from the same publish.
Any mix allowed by this characterisation is observable: counts one publish
newer than the frame (reader inside a publish), or counts arbitrarily many
publishes older (reader straddling complete publishes). -/
theorem C1_amended_field_reads (k1 r1 k2 r2 k : Nat) (h1 : r1 ≤ 3) (h2 : r2 ≤ 3)
    (_horder : 3 * k1 + r1 ≤ 3 * k2 + r2) :
    api_data_read k1 r1 k2 r2 =
      (k1 + if 1 ≤ r1 then 1 else 0, k2 + if 2 ≤ r2 then 1 else 0) ∧
    api_data_read k 0 k 0 = (k, k) := by
  constructor
  · rw [api_data_read, globalsAt_counts k1 r1 h1, globalsAt_frame k2 r2 h2]
  · rw [api_data_read, globalsAt_counts k 0 (by decide), globalsAt_frame k 0 (by decide)]
    simp

/-- Witness for C1 (amended) at two concrete reader schedules: both loads
inside publish 2 (counts 2, frame 1), and both loads at the boundary after
five complete publishes (consistent pair 5, 5). -/
theorem C1_amended_field_reads_witness :
    api_data_read 1 1 1 1 = (2, 1) ∧ api_data_read 5 0 5 0 = (5, 5) := by
  have h := C1_amended_field_reads 1 1 1 1 5 (by decide) (by decide) (by decide)
  exact ⟨h.1.trans (by decide), h.2⟩

/-!
Claim C2: reconnection rate limiting.
-/

/-- Iteration environment in which every URL fails to open (upstream down). -/
def envAllFail (t : Int) : Env :=
  { time := t, opens := fun _ => false, readOk := false, frameId := 0,
    detector := Except.error (), names := fun _ => "" }

/-- C2: the claim states that while disconnected, consecutive connection
attempts are at least `connection_retry_interval = 30` seconds apart.  The
code violates this: the guard is
`if not connected or (current_time - last_connection_attempt >
connection_retry_interval)`, whose first disjunct re-runs the connection
section on EVERY iteration while disconnected; the all-URLs-fail branch
sleeps only one second before the next iteration.  Starting disconnected
with the upstream down, a full connection attempt happens at time 100 and
again at time 101: one second apart, far below the 30-second interval the
code's own placeholder text ("Retrying in 30s") announces. -/
theorem C2_retry_every_second :
    (loopStep true (envAllFail 100) initialState).2.connectionAttempted = true ∧
    (loopStep true (envAllFail 100) initialState).1.connected = false ∧
    (loopStep true (envAllFail 100) initialState).1.last_connection_attempt = 100 ∧
    (loopStep true (envAllFail 101)
        (loopStep true (envAllFail 100) initialState).1).2.connectionAttempted = true ∧
    (101 : Int) - 100 < connection_retry_interval := by
  decide

/-!
Claim C3: behaviour on a successfully read frame when analysis is not due.
-/

/-- A connected state five seconds after the last analysis, with five frames
counted since then: analysis is not due. -/
def stateNotDue : LoopState :=
  { connected := true, last_connection_attempt := 95, cap_url := some camera_stream_url,
    last_frame := some (Frame.raw 3), detection_counts := { Birds := 1, Persons := 2 },
    last_analysis_time := 95, frame_count_since_analysis := 5 }

/-- Environment with a successful read of frame 7 at time 100. -/
def envNotDue : Env :=
  { time := 100, opens := fun _ => false, readOk := true, frameId := 7,
    detector := Except.ok [], names := fun _ => "" }

/-- C3: the claim states that a successfully read frame on which analysis is
not due is published raw to the sink and `frames_since_last_analysis` is
incremented.  The code does neither: the throttle `if` has no `else`, so a
not-due frame is silently dropped — `last_frame` still holds the old frame,
`frame_count_since_analysis` is unchanged, nothing is published.  (Counts
being unchanged is the one part of the claim the code satisfies.) -/
theorem C3_not_due_frame_dropped :
    envNotDue.readOk = true ∧
    envNotDue.time - stateNotDue.last_analysis_time < 60 ∧
    stateNotDue.frame_count_since_analysis < max_frames_without_analysis ∧
    (loopStep true envNotDue stateNotDue).1 = stateNotDue ∧
    (loopStep true envNotDue stateNotDue).2.published = none := by
  decide

/-!
Claim C4: behaviour when the detector raises.
-/

/-- A connected, analysis-due state (last analysis at time 0). -/
def stateDue : LoopState :=
  { connected := true, last_connection_attempt := 95, cap_url := some camera_stream_url,
    last_frame := some (Frame.raw 3), detection_counts := { Birds := 1, Persons := 2 },
    last_analysis_time := 0, frame_count_since_analysis := 0 }

/-- Environment in which the read succeeds but `model(frame)` raises. -/
def envDetectorRaises : Env :=
  { time := 100, opens := fun _ => false, readOk := true, frameId := 8,
    detector := Except.error (), names := fun _ => "" }

/-- C4: the claim states that when the Detector raises, the frame is still
published unannotated and the connection state remains Connected.  False: the
`except Exception` handler around the whole read/analyse/publish sequence
fires, publishes nothing, and sets `connected = False`, so reconnection IS
triggered.  Concretely, with the detector raising at a due frame, the
iteration makes one detector call, publishes no frame, and leaves the loop
disconnected. -/
theorem C4_counterexample :
    (loopStep true envDetectorRaises stateDue).2.detectorCalls = 1 ∧
    (loopStep true envDetectorRaises stateDue).2.published = none ∧
    (loopStep true envDetectorRaises stateDue).1.connected = false := by
  decide

/-- C4 (amended): if the Detector raises during a connected iteration with a
successful read and analysis due, the exception is caught (logged), no frame
is published, the previous counts and previous frame are retained, and the
loop transitions to Disconnected — reconnection is triggered. -/
theorem C4_detector_error_disconnects (env : Env) (s : LoopState)
    (hc : s.connected = true)
    (hskip : ¬ connection_retry_interval < env.time - s.last_connection_attempt)
    (hread : env.readOk = true)
    (hdue : 60 ≤ env.time - s.last_analysis_time ∨
      max_frames_without_analysis ≤ s.frame_count_since_analysis)
    (herr : env.detector = Except.error ()) :
    (loopStep true env s).2.exceptionCaught = true ∧
    (loopStep true env s).2.published = none ∧
    (loopStep true env s).1.detection_counts = s.detection_counts ∧
    (loopStep true env s).1.last_frame = s.last_frame ∧
    (loopStep true env s).1.connected = false := by
  simp [loopStep, read_phase, hc, hskip, hread, hdue, herr]

/-- Witness for C4 (amended) at the concrete raising environment. -/
theorem C4_detector_error_disconnects_witness :
    (loopStep true envDetectorRaises stateDue).2.exceptionCaught = true ∧
    (loopStep true envDetectorRaises stateDue).2.published = none ∧
    (loopStep true envDetectorRaises stateDue).1.detection_counts = stateDue.detection_counts ∧
    (loopStep true envDetectorRaises stateDue).1.last_frame = stateDue.last_frame ∧
    (loopStep true envDetectorRaises stateDue).1.connected = false :=
  C4_detector_error_disconnects envDetectorRaises stateDue rfl (by decide) rfl
    (by decide) rfl

/-!
Claim C5: alternative-URL fallback and primary retry behaviour.
-/

/-- The option returned by the alternative-URL loop is the first URL of the
list that opens. -/
theorem try_alternative_urls_snd (opens : String → Bool) (l : List String) :
    (try_alternative_urls opens l).2 = l.find? opens := by
  induction l with
  | nil => rfl
  | cons u rest ih =>
    by_cases h : opens u <;> simp [try_alternative_urls, List.find?, h, ih]

/-- The read section never changes which URL the capture was opened with. -/
theorem read_phase_cap_url (m : Bool) (env : Env) (s : LoopState)
    (a : Bool) (t : List String) :
    (read_phase m env s a t).1.cap_url = s.cap_url := by
  simp only [read_phase]
  repeat first | rfl | split

/-- The read section reports the connection events it was handed. -/
theorem read_phase_events (m : Bool) (env : Env) (s : LoopState)
    (a : Bool) (t : List String) :
    (read_phase m env s a t).2.connectionAttempted = a ∧
    (read_phase m env s a t).2.urlsTried = t := by
  simp only [read_phase]
  repeat first | exact ⟨rfl, rfl⟩ | split

/-- A healthy state connected via the first alternative URL since time 100. -/
def stateOnAlternative : LoopState :=
  { connected := true, last_connection_attempt := 100, cap_url := some "rtsp://demo/live",
    last_frame := some (Frame.raw 3), detection_counts := { Birds := 0, Persons := 0 },
    last_analysis_time := 100, frame_count_since_analysis := 0 }

/-- At time 110 the upstream reads fine (no URL would open, but none is
tried). -/
def envAltHealthy : Env :=
  { time := 110, opens := fun _ => false, readOk := true, frameId := 4,
    detector := Except.ok [], names := fun _ => "" }

/-- At time 131 (31s after the last attempt) the primary would open again;
the alternative connection is still healthy. -/
def envPrimaryBack : Env :=
  { time := 131, opens := fun u => u == camera_stream_url, readOk := true, frameId := 5,
    detector := Except.ok [], names := fun _ => "" }

/-- C5: the claim states that once connected on an alternative URL with
succeeding reads, the primary is not retried until that alternative fails.
False: the connection guard's second disjunct
(`current_time - last_connection_attempt > connection_retry_interval`)
re-runs the whole connection section — primary first — every 30 seconds even
while connected and healthy.  Concretely: connected on `rtsp://demo/live`
since time 100, a read at time 110 succeeds without touching any URL, yet at
time 131 the iteration re-attempts connection, tries (only) the primary, and
switches the capture to it, although the alternative never failed. -/
theorem C5_counterexample :
    (loopStep true envAltHealthy stateOnAlternative).1.cap_url = some "rtsp://demo/live" ∧
    (loopStep true envAltHealthy stateOnAlternative).1.connected = true ∧
    (loopStep true envAltHealthy stateOnAlternative).2.urlsTried = [] ∧
    (loopStep true envPrimaryBack
        (loopStep true envAltHealthy stateOnAlternative).1).2.connectionAttempted = true ∧
    (loopStep true envPrimaryBack
        (loopStep true envAltHealthy stateOnAlternative).1).2.urlsTried
      = [camera_stream_url] ∧
    (loopStep true envPrimaryBack
        (loopStep true envAltHealthy stateOnAlternative).1).1.cap_url
      = some camera_stream_url := by
  decide

/-- C5 (amended): when a (re)connection attempt runs and the primary fails to
open, the configured alternatives are tried in list order and the capture
ends up on the first that opens.  However, the primary is NOT left alone
while the alternative is healthy: any iteration in which more than the retry
interval has elapsed since the last connection attempt re-runs the
connection section starting with the primary, connected or not. -/
theorem C5_alternative_order_and_primary_retry (m : Bool) (env : Env) (s : LoopState)
    (u : String) :
    (s.connected = false → env.opens camera_stream_url = false →
      alternative_urls.find? env.opens = some u →
      (loopStep m env s).1.cap_url = some u ∧
      (loopStep m env s).2.urlsTried.head? = some camera_stream_url) ∧
    (s.connected = true → connection_retry_interval < env.time - s.last_connection_attempt →
      (loopStep m env s).2.connectionAttempted = true ∧
      (loopStep m env s).2.urlsTried.head? = some camera_stream_url) := by
  constructor
  · intro hc hp hfind
    have hsnd : (try_alternative_urls env.opens alternative_urls).2 = some u := by
      rw [try_alternative_urls_snd]; exact hfind
    have hguard : (¬ s.connected = true ∨
        connection_retry_interval < env.time - s.last_connection_attempt) :=
      Or.inl (by simp [hc])
    simp only [loopStep, if_pos hguard, hp, Bool.false_eq_true, if_false, hsnd]
    refine ⟨read_phase_cap_url m env _ true _, ?_⟩
    rw [(read_phase_events m env _ true _).2]
    rfl
  · intro hc hint
    have hguard : (¬ s.connected = true ∨
        connection_retry_interval < env.time - s.last_connection_attempt) := Or.inr hint
    simp only [loopStep, if_pos hguard]
    by_cases hp : env.opens camera_stream_url
    · rw [if_pos hp]
      refine ⟨(read_phase_events _ _ _ _ _).1, ?_⟩
      rw [(read_phase_events _ _ _ _ _).2]
      rfl
    · rw [if_neg hp]
      cases halt : (try_alternative_urls env.opens alternative_urls).2 with
      | none =>
        simp only [halt]
        exact ⟨trivial, rfl⟩
      | some v =>
        simp only [halt]
        refine ⟨(read_phase_events _ _ _ _ _).1, ?_⟩
        rw [(read_phase_events _ _ _ _ _).2]
        rfl

/-- Environment at time 50 in which only the first alternative URL opens. -/
def envOnlyAlternative : Env :=
  { time := 50, opens := fun v => v == "rtsp://demo/live", readOk := true, frameId := 1,
    detector := Except.ok [], names := fun _ => "" }

/-- Witness for C5 (amended): from the disconnected initial state with only
the first alternative opening, the capture lands on that alternative; and a
connected-on-alternative state past the retry interval re-attempts starting
with the primary. -/
theorem C5_alternative_order_and_primary_retry_witness :
    ((loopStep true envOnlyAlternative initialState).1.cap_url = some "rtsp://demo/live" ∧
      (loopStep true envOnlyAlternative initialState).2.urlsTried.head?
        = some camera_stream_url) ∧
    ((loopStep true envPrimaryBack stateOnAlternative).2.connectionAttempted = true ∧
      (loopStep true envPrimaryBack stateOnAlternative).2.urlsTried.head?
        = some camera_stream_url) := by
  refine ⟨(C5_alternative_order_and_primary_retry true envOnlyAlternative initialState
      "rtsp://demo/live").1 rfl (by decide) (by decide),
    (C5_alternative_order_and_primary_retry true envPrimaryBack stateOnAlternative
      "rtsp://demo/live").2 rfl (by decide)⟩

/-!
Claim C6: the analysis throttle.
-/

/-- C6: on a connected iteration (no reconnection due) with a successful
read and the model loaded, the Detector is invoked — exactly once — if and
only if at least 60 seconds have passed since the last analysis OR at least
`max_frames_without_analysis = 500` frames have been counted since then; and
whenever the detector call completes without an exception, the frame counter
is reset to 0 and the analysis timestamp to the current time, so both
throttle counters restart from zero. -/
theorem C6_throttle (env : Env) (s : LoopState)
    (hc : s.connected = true)
    (hskip : ¬ connection_retry_interval < env.time - s.last_connection_attempt)
    (hread : env.readOk = true) :
    ((loopStep true env s).2.detectorCalls = 1 ↔
      (60 ≤ env.time - s.last_analysis_time ∨
        max_frames_without_analysis ≤ s.frame_count_since_analysis)) ∧
    ((loopStep true env s).2.detectorCalls = 1 →
      (loopStep true env s).2.exceptionCaught = false →
      (loopStep true env s).1.frame_count_since_analysis = 0 ∧
      (loopStep true env s).1.last_analysis_time = env.time) := by
  have hguard : ¬ (¬ s.connected = true ∨
      connection_retry_interval < env.time - s.last_connection_attempt) := by
    intro h
    rcases h with h | h
    · exact h hc
    · exact hskip h
  simp only [loopStep, if_neg hguard, if_pos hc, read_phase, hread, not_true_eq_false,
    Bool.false_eq_true, if_false, eq_self_iff_true, if_true]
  by_cases hdue : (60 : Int) ≤ env.time - s.last_analysis_time ∨
      max_frames_without_analysis ≤ s.frame_count_since_analysis
  · rw [if_pos hdue]
    split
    · exact ⟨⟨fun _ => hdue, fun _ => rfl⟩, fun _ h => by cases h⟩
    · split
      · exact ⟨⟨fun _ => hdue, fun _ => rfl⟩, fun _ h => by cases h⟩
      · exact ⟨⟨fun _ => hdue, fun _ => rfl⟩, fun _ _ => ⟨rfl, rfl⟩⟩
  · rw [if_neg hdue]
    exact ⟨by simp [hdue], fun h => by simp at h⟩

/-- Environment for the C6 witness: at time 1000 both throttle conditions
hold, the read succeeds, and the detector returns one person and one bird. -/
def envBothDue : Env :=
  { time := 1000, opens := fun _ => false, readOk := true, frameId := 9,
    detector := Except.ok [0, 1], names := fun i => if i = 0 then "person" else "bird" }

/-- A connected state in which both throttle conditions hold at time 1000
(last analysis at time 0, 600 frames counted). -/
def stateBothDue : LoopState :=
  { connected := true, last_connection_attempt := 1000, cap_url := some camera_stream_url,
    last_frame := none, detection_counts := { Birds := 0, Persons := 0 },
    last_analysis_time := 0, frame_count_since_analysis := 600 }

/-- Witness for C6 at a concrete iteration where both throttle conditions
hold simultaneously: the detector runs exactly once and both counters
reset. -/
theorem C6_throttle_witness :
    (loopStep true envBothDue stateBothDue).2.detectorCalls = 1 ∧
    (loopStep true envBothDue stateBothDue).1.frame_count_since_analysis = 0 ∧
    (loopStep true envBothDue stateBothDue).1.last_analysis_time = envBothDue.time := by
  have h := C6_throttle envBothDue stateBothDue rfl (by decide) rfl
  have hcall : (loopStep true envBothDue stateBothDue).2.detectorCalls = 1 :=
    h.1.mpr (by decide)
  have hres := h.2 hcall (by decide)
  exact ⟨hcall, hres.1, hres.2⟩

/-!
Claim C7 and C8: the detection filter.
-/

/-- Zipping a list with its own image under a Boolean predicate and keeping
the marked elements is ordinary filtering (the numpy boolean-mask indexing
on a nonempty mask). -/
theorem filterMap_zip_map {α : Type} (p : α → Bool) (l : List α) :
    ((l.zip (l.map p)).filterMap fun q => if q.2 then some q.1 else none) = l.filter p := by
  induction l with
  | nil => rfl
  | cons a t ih =>
    by_cases h : p a <;>
      simp [List.zip_cons_cons, List.filterMap_cons, List.filter_cons, h, ih]

/-- The counting fold of `filter_detections`, generalised over the
accumulator. -/
theorem count_filtered_foldl (names : Nat → String) (l : List Nat) (a : ClassCounts) :
    (l.foldl
      (fun acc c =>
        if names c = "bird" then { acc with Birds := acc.Birds + 1 }
        else if names c = "person" then { acc with Persons := acc.Persons + 1 }
        else acc) a) =
    { Birds := a.Birds + l.countP (fun c => names c == "bird"),
      Persons := a.Persons + l.countP (fun c => names c == "person") } := by
  induction l generalizing a with
  | nil => simp
  | cons c t ih =>
    simp only [List.foldl_cons, List.countP_cons, ih]
    by_cases hb : names c = "bird"
    · have hb2 : (names c == "bird") = true := by simp [hb]
      have hp2 : (names c == "person") = false := by simp [hb]
      simp only [if_pos hb, hb2, hp2, ClassCounts.mk.injEq, if_true, if_false,
        Bool.false_eq_true]
      constructor <;> omega
    · have hb2 : (names c == "bird") = false := by simp [hb]
      by_cases hp : names c = "person"
      · have hp2 : (names c == "person") = true := by simp [hp]
        simp only [if_neg hb, if_pos hp, hb2, hp2, ClassCounts.mk.injEq, if_true, if_false,
          Bool.false_eq_true]
        constructor <;> omega
      · have hp2 : (names c == "person") = false := by simp [hp]
        simp only [if_neg hb, if_neg hp, hb2, hp2, ClassCounts.mk.injEq, if_false,
          Bool.false_eq_true]
        constructor <;> omega

/-- The counting loop counts exactly the `"bird"`-named and `"person"`-named
elements of its input. -/
theorem count_filtered_eq (names : Nat → String) (l : List Nat) :
    count_filtered names l =
      { Birds := l.countP (fun c => names c == "bird"),
        Persons := l.countP (fun c => names c == "person") } := by
  rw [count_filtered, count_filtered_foldl]
  simp

/-- Counting a recognised class name over the mask-filtered list is the same
as counting it over the whole detection list: the mask keeps every detection
of that name. -/
theorem countP_name_filter (names : Nat → String) (l : List Nat) (nm : String)
    (hmem : yolo_classes.contains nm = true) :
    ((l.filter fun c => yolo_classes.contains (names c)).countP fun c => names c == nm) =
      l.countP (fun c => names c == nm) := by
  rw [List.countP_filter]
  congr 1
  funext c
  by_cases h : (names c == nm) = true
  · have he : names c = nm := eq_of_beq h
    rw [h, he, hmem]
    rfl
  · have hb : (names c == nm) = false := by
      cases hx : (names c == nm)
      · rfl
      · exact absurd hx h
    rw [hb]
    exact Bool.false_and _

/-- C7: the claim quantifies over every list of detections, but on the empty
list `filter_detections` raises (see the model's doc comment: `np.array([])`
has float dtype and float-dtype indexing of the result tensors is rejected),
so no counts are produced at all for zero detections. -/
theorem C7_counterexample :
    filter_detections (fun _ => "cat") [] = Except.error "IndexError" := rfl

/-- C7 (amended): for every NONEMPTY list of detections, `filter_detections`
returns the detections whose class name is in {person, bird} together with
counts in which `Persons` is exactly the number of detections named
`"person"` and `Birds` exactly the number named `"bird"`; detections of any
other category are filtered out and affect neither count. -/
theorem C7_filter_counts (names : Nat → String) (cls : List Nat) (hne : cls ≠ []) :
    filter_detections names cls =
      Except.ok (cls.filter (fun c => yolo_classes.contains (names c)),
        { Birds := cls.countP (fun c => names c == "bird"),
          Persons := cls.countP (fun c => names c == "person") }) := by
  have hm : ((cls.map fun c => yolo_classes.contains (names c)).isEmpty) = false := by
    cases cls with
    | nil => exact absurd rfl hne
    | cons a t => rfl
  simp only [filter_detections, hm, Bool.false_eq_true, if_false]
  rw [filterMap_zip_map, count_filtered_eq,
    countP_name_filter names cls "bird" rfl,
    countP_name_filter names cls "person" rfl]

/-- Witness for C7 (amended) on the concrete detection list
person, bird, dog, person: the dog is dropped and the counts are
`{Birds: 1, Persons: 2}`. -/
theorem C7_filter_counts_witness :
    filter_detections (fun i => if i = 0 then "person" else if i = 1 then "bird" else "dog")
        [0, 1, 2, 0] =
      Except.ok ([0, 1, 0], { Birds := 1, Persons := 2 }) := by
  rw [C7_filter_counts (fun i => if i = 0 then "person" else if i = 1 then "bird" else "dog")
    [0, 1, 2, 0] (by decide)]
  rfl

/-- C8: the claim states that a Detector returning zero detections makes
`filter_detections` return `{"Birds": 0, "Persons": 0}` without error.  The
code instead raises: with no detections the comprehension building the mask
is empty, `np.array([])` has dtype float64, and indexing `results[0]` with a
float-dtype array raises `IndexError`, which the acquisition loop's
`except Exception` handler then treats as a connection failure.  The counting
code itself has no error branch for empty input — the failure comes from the
mask construction — so the claim matches the evident intent and the code is
the slip. -/
theorem C8_empty_detections_raise :
    filter_detections (fun i => if i = 0 then "person" else "bird") [] =
      Except.error "IndexError" := rfl

/-!
Claim C9: with the model loaded, the frame counter is dead.
-/

/-- With the model loaded, no branch of a loop iteration increments
`frame_count_since_analysis`: the only increment in the source sits in the
`model is None` branch. -/
theorem loopStep_frame_count_le (env : Env) (s : LoopState) :
    (loopStep true env s).1.frame_count_since_analysis ≤ s.frame_count_since_analysis := by
  simp only [loopStep, read_phase, eq_self_iff_true, if_true]
  repeat' split
  all_goals first | exact Nat.le_refl _ | exact Nat.zero_le _

/-- With the model loaded, a frame counter that is zero stays zero across
any run of the loop. -/
theorem runLoop_frame_count_zero (envs : List Env) (s : LoopState)
    (h : s.frame_count_since_analysis = 0) :
    (runLoop true envs s).frame_count_since_analysis = 0 := by
  induction envs generalizing s with
  | nil => exact h
  | cons e t ih =>
    apply ih
    have hle := loopStep_frame_count_le e s
    omega

/-- A detector invocation can only happen when the throttle condition held at
the start of the iteration. -/
theorem loopStep_detector_due (m : Bool) (env : Env) (s : LoopState)
    (h : (loopStep m env s).2.detectorCalls = 1) :
    60 ≤ env.time - s.last_analysis_time ∨
      max_frames_without_analysis ≤ s.frame_count_since_analysis := by
  simp only [loopStep, read_phase] at h
  repeat' split at h
  all_goals simp_all

/-- C9: with the detection model loaded, `frame_count_since_analysis` is
never incremented by any iteration (it only ever stays or resets to 0), so
from the initial state it is 0 forever and the
`frame_count_since_analysis >= max_frames_without_analysis` disjunct can
never be what triggers an analysis: whenever the detector is invoked, the
60-second condition held. -/
theorem C9_frame_count_stays_zero (envs : List Env) (e : Env) :
    (runLoop true envs initialState).frame_count_since_analysis = 0 ∧
    (∀ s : LoopState,
      (loopStep true e s).1.frame_count_since_analysis ≤ s.frame_count_since_analysis) ∧
    ((loopStep true e (runLoop true envs initialState)).2.detectorCalls = 1 →
      60 ≤ e.time - (runLoop true envs initialState).last_analysis_time) := by
  have hz : (runLoop true envs initialState).frame_count_since_analysis = 0 :=
    runLoop_frame_count_zero envs initialState rfl
  refine ⟨hz, fun s => loopStep_frame_count_le e s, fun h => ?_⟩
  rcases loopStep_detector_due true e (runLoop true envs initialState) h with h1 | h2
  · exact h1
  · rw [hz] at h2
    exact absurd h2 (by simp [max_frames_without_analysis])

/-- Environment for the C9 witness: at time 1000 the primary opens, the read
succeeds and the detector finds one person. -/
def envFirstAnalysis : Env :=
  { time := 1000, opens := fun _ => true, readOk := true, frameId := 2,
    detector := Except.ok [5], names := fun _ => "person" }

/-- Witness for C9 after the empty run (initial state): the counter is 0,
one step cannot increase it, and the concrete analysing step satisfies the
time condition. -/
theorem C9_frame_count_stays_zero_witness :
    (runLoop true [] initialState).frame_count_since_analysis = 0 ∧
    (loopStep true envFirstAnalysis initialState).1.frame_count_since_analysis
      ≤ initialState.frame_count_since_analysis ∧
    (60 : Int) ≤ envFirstAnalysis.time - (runLoop true [] initialState).last_analysis_time := by
  have h := C9_frame_count_stays_zero [] envFirstAnalysis
  exact ⟨h.1, h.2.1 initialState, h.2.2 (by decide)⟩

/-!
Claim C10: the status endpoints and the placeholder frame.
-/

/-- Once `last_frame` holds a frame, no loop iteration ever resets it to
`None`: every branch either leaves it alone or stores a new frame. -/
theorem loopStep_last_frame_isSome (m : Bool) (env : Env) (s : LoopState)
    (h : s.last_frame.isSome = true) :
    (loopStep m env s).1.last_frame.isSome = true := by
  simp only [loopStep, read_phase]
  repeat' split
  all_goals simp_all

/-- Non-emptiness of `last_frame` persists across any run of the loop. -/
theorem runLoop_last_frame_isSome (m : Bool) (envs : List Env) (s : LoopState)
    (h : s.last_frame.isSome = true) :
    (runLoop m envs s).last_frame.isSome = true := by
  induction envs generalizing s with
  | nil => exact h
  | cons e t ih => exact ih _ (loopStep_last_frame_isSome m e s h)

/-- A disconnected iteration in which no URL opens stores the placeholder
image into `last_frame`. -/
theorem loopStep_all_fail_placeholder (m : Bool) (env : Env) (s : LoopState)
    (hc : s.connected = false) (hf : ∀ u, env.opens u = false) :
    (loopStep m env s).1.last_frame = some Frame.placeholder := by
  have hguard : (¬ s.connected = true ∨
      connection_retry_interval < env.time - s.last_connection_attempt) :=
    Or.inl (by simp [hc])
  simp only [loopStep, if_pos hguard, hf, Bool.false_eq_true, if_false]
  simp [try_alternative_urls, alternative_urls, hf]

/-- C10: `/camera_status` and the `camera.status` field of `/data` report
`"connected"` exactly when `last_frame` is non-`None`; the connection-failure
path itself writes a placeholder image into `last_frame`, and no later
iteration ever clears `last_frame`; hence after the first failed connection
attempt both endpoints report `"connected"` forever, even while the upstream
camera is disconnected. -/
theorem C10_status_stuck_connected (m : Bool) (e : Env) (envs : List Env) (s : LoopState)
    (hc : s.connected = false) (hf : ∀ u, e.opens u = false) :
    (∀ lf : Option Frame,
      (camera_status lf = "connected" ↔ lf.isSome = true) ∧
      (api_data_camera_status lf = "connected" ↔ lf.isSome = true)) ∧
    (loopStep m e s).1.last_frame = some Frame.placeholder ∧
    camera_status (runLoop m envs (loopStep m e s).1).last_frame = "connected" ∧
    api_data_camera_status (runLoop m envs (loopStep m e s).1).last_frame = "connected" := by
  have hiff : ∀ lf : Option Frame,
      (camera_status lf = "connected" ↔ lf.isSome = true) ∧
      (api_data_camera_status lf = "connected" ↔ lf.isSome = true) := by
    intro lf
    cases lf with
    | none =>
      constructor <;> constructor <;> intro h <;> simp [camera_status,
        api_data_camera_status] at h
    | some f =>
      exact ⟨⟨fun _ => rfl, fun _ => rfl⟩, ⟨fun _ => rfl, fun _ => rfl⟩⟩
  have hplace := loopStep_all_fail_placeholder m e s hc hf
  have hsome : (runLoop m envs (loopStep m e s).1).last_frame.isSome = true :=
    runLoop_last_frame_isSome m envs _ (by rw [hplace]; rfl)
  exact ⟨hiff, hplace, (hiff _).1.mpr hsome, (hiff _).2.mpr hsome⟩

/-- Environment with the upstream entirely down, used for the C10 witness. -/
def envDown : Env :=
  { time := 200, opens := fun _ => false, readOk := false, frameId := 0,
    detector := Except.error (), names := fun _ => "" }

/-- Witness for C10: starting from the initial (disconnected, empty-sink)
state with the upstream down, the failure iteration stores the placeholder
and both endpoints report "connected" after a further down iteration. -/
theorem C10_status_stuck_connected_witness :
    (loopStep true envDown initialState).1.last_frame = some Frame.placeholder ∧
    camera_status (runLoop true [envDown]
      (loopStep true envDown initialState).1).last_frame = "connected" ∧
    api_data_camera_status (runLoop true [envDown]
      (loopStep true envDown initialState).1).last_frame = "connected" := by
  have h := C10_status_stuck_connected true envDown [envDown] initialState rfl
    (fun u => rfl)
  exact ⟨h.2.1, h.2.2.1, h.2.2.2⟩
